import Mathlib

/-!
Verification of the openclaw per-turn context-planner and memory-cortex
retrieval pipeline (`src/agents/context-planner.ts`,
`src/auto-reply/reply/agent-runner-memory-cortex.ts`,
`src/auto-reply/reply/memory-cortex-client.ts`).

Modelling conventions:
  - JavaScript strings are modelled as Lean `String`; `s.length` and
    `String.prototype.slice` count UTF-16 code units, modelled by
    `utf16Length` / `utf16Take`.  (`utf16Take` deviates from `slice` only
    when the cut would split a surrogate pair: the split astral character
    is dropped instead of leaving a lone surrogate, which Lean strings
    cannot represent.)
  - `RegExp.prototype.test` is an oracle parameter `rt : JsRegex → String
    → Bool` (the regexes carry their source pattern text); regexes whose
    semantics are trivial (single-character containment, counting,
    splitting on `[.!?]+`, `^\S+$`) are implemented directly.
  - `new RegExp(p, "i").test(m)` for config-supplied extra patterns is an
    oracle `extraTest : String → String → Option Bool`, `none` modelling
    the `catch` branch for an invalid pattern.
  - Network calls do not run: `runMemoryCortexRecall` takes the outcome of
    the single `hybridSearch` call as a parameter and additionally returns
    the list of network requests it issued, in order.
  - `Date.now()` is an explicit `now : Int` parameter; JS float numbers on
    facts (importance, score) are modelled as `Int`.
-/

/-- JavaScript whitespace (the set trimmed by `String.prototype.trim` and
matched by regex `\s`): WhiteSpace plus LineTerminator code points. -/
def isJsWhitespace (c : Char) : Bool :=
  c == '\t' || c == '\n' || c == '\u000B' || c == '\u000C' || c == '\r' ||
  c == ' ' || c == '\u00A0' || c == '\u1680' ||
  ('\u2000' ≤ c && c ≤ '\u200A') ||
  c == '\u2028' || c == '\u2029' || c == '\u202F' || c == '\u205F' ||
  c == '\u3000' || c == '\uFEFF'

/-- JavaScript `String.prototype.trim`. -/
def jsTrim (s : String) : String :=
  String.mk (((s.data.dropWhile isJsWhitespace).reverse.dropWhile isJsWhitespace).reverse)

/-- UTF-16 length of a string (JavaScript `String.prototype.length`). -/
def utf16Length (s : String) : Nat :=
  s.data.foldl (fun n c => n + (if c.toNat ≥ 0x10000 then 2 else 1)) 0

/-- Take the first `n` UTF-16 code units of a string
(JavaScript `s.slice(0, n)`); a surrogate-pair-splitting cut drops the
split character (see the modelling note above). -/
def utf16TakeAux : List Char → Nat → List Char
  | [], _ => []
  | c :: rest, n =>
    let w := if c.toNat ≥ 0x10000 then 2 else 1
    if w ≤ n then c :: utf16TakeAux rest (n - w) else []

/-- JavaScript `s.slice(0, n)` on UTF-16 code units. -/
def utf16Take (s : String) (n : Nat) : String :=
  String.mk (utf16TakeAux s.data n)

/-- `listStartsWith l p` = `p` is an initial segment of `l`. -/
def listStartsWith : List Char → List Char → Bool
  | _, [] => true
  | [], _ :: _ => false
  | a :: as, b :: bs => a == b && listStartsWith as bs

/-- `containsSeq p l` = `p` occurs contiguously inside `l`
(JavaScript `/lit/.test(s)` for a literal pattern). -/
def containsSeq (pat : List Char) : List Char → Bool
  | [] => listStartsWith [] pat
  | c :: rest => listStartsWith (c :: rest) pat || containsSeq pat rest

/-- JavaScript `/\$\d/.test(s)`: a `$` immediately followed by a digit. -/
def hasDollarDigit : List Char → Bool
  | a :: b :: rest => (a == '$' && b.isDigit) || hasDollarDigit (b :: rest)
  | _ => false

/-- A sentence delimiter for the complex category's `split(/[.!?]+/)`. -/
def isSentenceDelim (c : Char) : Bool :=
  c == '.' || c == '!' || c == '?'

/-- JavaScript `msg.split(/[.!?]+/)`: split on maximal runs of `.!?`,
keeping the empty segments the JS engine produces at the ends.  The `Bool`
records whether the scan is inside a delimiter run. -/
def jsSplitSentencesAux : List Char → List Char → Bool → List String
  | [], cur, inDelim => if inDelim then [""] else [String.mk cur.reverse]
  | c :: rest, cur, inDelim =>
    if isSentenceDelim c then
      if inDelim then jsSplitSentencesAux rest [] true
      else String.mk cur.reverse :: jsSplitSentencesAux rest [] true
    else jsSplitSentencesAux rest (c :: cur) false

/-- JavaScript `msg.split(/[.!?]+/)`. -/
def jsSplitSentences (s : String) : List String :=
  jsSplitSentencesAux s.data [] false

/-- JavaScript `/^\S+$/.test(s)`: non-empty and free of `\s` characters. -/
def isNonWhitespaceRun (s : String) : Bool :=
  !s.data.isEmpty && s.data.all (fun c => !isJsWhitespace c)

-- ── Regex oracle ────────────────────────────────────────────────────────

/-- A JavaScript regex literal, identified by its source text and flags.
Its `test` semantics are supplied by an oracle `JsRegex → String → Bool`. -/
structure JsRegex where
  pattern : String
  flags : String
deriving DecidableEq, Repr

/-- Type of the `RegExp.prototype.test` oracle. -/
abbrev RegexTest := JsRegex → String → Bool

/-- Type of the oracle for `new RegExp(p, "i").test(m)` on config-supplied
extra patterns; `none` models a thrown `SyntaxError` (invalid pattern). -/
abbrev ExtraPatternTest := String → String → Option Bool

-- ── context-planner.ts: types ───────────────────────────────────────────

/-- `memory` policy record of a category / `memoryParams` of a plan. -/
structure MemoryPolicy where
  maxFacts : Nat
  maxTokens : Nat
  skip : Bool
deriving DecidableEq, Repr

/-- `ContextPlan` (context-planner.ts).  `toolAllowlist = none` models
`null` (full tool set); think levels are the raw strings of the source. -/
structure ContextPlan where
  categories : List String
  toolAllowlist : Option (List String)
  memoryParams : MemoryPolicy
  thinkLevel : String
  hint : Option String
deriving DecidableEq, Repr

/-- `ContextPlannerCategoryOverride` (types.agent-defaults.ts). -/
structure ContextPlannerCategoryOverride where
  extraPatterns : Option (List String) := none
  extraTools : Option (List String) := none
  thinkingLevel : Option String := none
  disabled : Option Bool := none
deriving DecidableEq, Repr

/-- `ContextPlannerConfig` (types.agent-defaults.ts); the `categories`
record is an association list keyed by category name.  The source field
`promptAnnotation` is modelled as `promptAnnotate`. -/
structure ContextPlannerConfig where
  enabled : Option Bool := none
  toolFiltering : Option Bool := none
  memoryTuning : Option Bool := none
  thinkingTuning : Option Bool := none
  promptAnnotate : Option Bool := none
  alwaysInclude : Option (List String) := none
  complexThreshold : Option Nat := none
  fallbackToFull : Option Bool := none
  categories : Option (List (String × ContextPlannerCategoryOverride)) := none
deriving DecidableEq, Repr

/-- `THINK_LEVEL_ORDER` (context-planner.ts): a record lookup returning
`none` for keys not present. -/
def THINK_LEVEL_ORDER (s : String) : Option Nat :=
  if s = "off" then some 0
  else if s = "minimal" then some 1
  else if s = "low" then some 2
  else if s = "medium" then some 3
  else if s = "high" then some 4
  else if s = "xhigh" then some 5
  else none

/-- `maxThinkLevel` (context-planner.ts): `(ORDER[a] ?? 0) >= (ORDER[b] ??
0) ? a : b`. -/
def maxThinkLevel (a b : String) : String :=
  if (THINK_LEVEL_ORDER a).getD 0 ≥ (THINK_LEVEL_ORDER b).getD 0 then a else b

/-- `CategoryDef` (context-planner.ts); `structural` keeps the source's
closures as Lean functions. -/
structure CategoryDef where
  name : String
  patterns : List JsRegex
  structural : List (String → Nat)
  threshold : Nat
  matchWeight : Nat
  tools : List String
  memory : MemoryPolicy
  thinking : String

-- ── context-planner.ts: CATEGORIES ──────────────────────────────────────

/-- First keyword pattern of the `casual` category (named so concrete
regex oracles can refer to it). -/
def casualGreetingPattern : JsRegex :=
  ⟨"^(hey|hi|hello|yo|sup|hola|howdy|hiya|heya|what\x27?s up)\\b", "i"⟩

/-- First keyword pattern of the `complex` category. -/
def complexPlanPattern : JsRegex :=
  ⟨"\\b(step\\s+by\\s+step|first.*then|plan|analyze|analysis|investigate|comprehensive)\\b", "i"⟩

/-- Third keyword pattern of the `complex` category. -/
def complexMultiplePattern : JsRegex :=
  ⟨"\\b(multiple|several|various|different|compare\\s+and)\\b", "i"⟩

/-- The `complex` entry of `CATEGORIES` (context-planner.ts), named so
theorems can refer to it. -/
def complexCategory (rt : RegexTest) : CategoryDef :=
  { name := "complex",
    patterns := [
      complexPlanPattern,
      ⟨"\\b(and\\s+then|after\\s+that|next|finally|also)\\b", "i"⟩,
      complexMultiplePattern],
    structural := [
      fun msg => if utf16Length msg > 300 then 3 else if utf16Length msg > 200 then 1 else 0,
      fun msg =>
        if ((jsSplitSentences msg).filter (fun s => utf16Length (jsTrim s) > 5)).length ≥ 3 then 2 else 0,
      fun msg => if rt ⟨"\\b\\d+[.)]\\s", ""⟩ msg then 2 else 0,
      fun msg =>
        let qCount := msg.data.count '?'
        if qCount ≥ 3 then 3 else if qCount ≥ 2 then 1 else 0],
    threshold := 4,
    matchWeight := 2,
    tools := [],
    memory := ⟨15, 500, false⟩,
    thinking := "high" }

/-- `CATEGORIES` (context-planner.ts), parametrised by the regex oracle
used by the structural closures that test a non-trivial regex. -/
def CATEGORIES (rt : RegexTest) : List CategoryDef := [
  { name := "casual",
    patterns := [
      casualGreetingPattern,
      ⟨"^(thanks|thank you|thx|ty|cheers|np|no problem|sure|ok|okay|cool|nice|great|awesome|lol|haha|heh)\\b", "i"⟩,
      ⟨"^(good\\s+(morning|afternoon|evening|night))\\b", "i"⟩,
      ⟨"^(how are you|how\x27s it going|what\x27s good)\\b", "i"⟩,
      ⟨"^(gm|gn|gg|brb|ttyl|bye|cya|later|peace)\\b", "i"⟩],
    structural := [
      fun msg => if utf16Length msg < 20 then 3 else 0,
      fun msg => if rt ⟨"^[\\p\x7bEmoji\x7d\\s]+$", "u"⟩ msg then 5 else 0,
      fun msg => if isNonWhitespaceRun msg && utf16Length (jsTrim msg) < 15 then 2 else 0],
    threshold := 3,
    matchWeight := 3,
    tools := ["message"],
    memory := ⟨0, 0, true⟩,
    thinking := "off" },
  { name := "research",
    patterns := [
      ⟨"\\b(search|find|look\\s*up|google|research)\\b", "i"⟩,
      ⟨"\\b(what\\s+is|who\\s+is|where\\s+is|when\\s+did|how\\s+does|how\\s+do|how\\s+to|why\\s+does|why\\s+is)\\b", "i"⟩,
      ⟨"\\b(explain|compare|versus|vs\\.?|difference\\s+between|define|summarize)\\b", "i"⟩,
      ⟨"\\b(latest|recent|current|news|update)\\b", "i"⟩],
    structural := [
      fun msg => if rt ⟨"https?:\\/\\/\\S+", ""⟩ msg then 3 else 0,
      fun msg => if msg.data.contains '?' then 2 else 0],
    threshold := 3,
    matchWeight := 2,
    tools := ["exec", "web_fetch", "web_search", "message", "read"],
    memory := ⟨10, 400, false⟩,
    thinking := "low" },
  { name := "coding",
    patterns := [
      ⟨"\\b(code|coding|program|script|function|class|method|variable|const|let|var)\\b", "i"⟩,
      ⟨"\\b(fix|debug|bug|error|exception|stack\\s*trace|traceback|crash|broken)\\b", "i"⟩,
      ⟨"\\b(commit|push|pull|merge|branch|git|deploy|build|compile|lint|test)\\b", "i"⟩,
      ⟨"\\b(refactor|optimize|implement|feature|pr|pull\\s*request|review)\\b", "i"⟩,
      ⟨"\\b(import|export|require|module|package|npm|pnpm|yarn|pip)\\b", "i"⟩],
    structural := [
      fun msg => if rt ⟨"(?:^|[\\s([\"\x27])(?:\\.\x7b0,2\x7d\\/)?[\\w-]+(?:\\/[\\w.-]+)*\\.\\w\x7b1,5\x7d\\b", ""⟩ msg then 3 else 0,
      fun msg => if containsSeq "```".data msg.data then 4 else 0,
      fun msg => if rt ⟨"`[^`]+`", ""⟩ msg then 2 else 0],
    threshold := 3,
    matchWeight := 2,
    tools := ["exec", "read", "write", "edit", "apply_patch", "process", "message"],
    memory := ⟨5, 200, false⟩,
    thinking := "medium" },
  { name := "crypto",
    patterns := [
      ⟨"\\b(sol|eth|btc|usdc|usdt|bnb|avax|matic|ada|dot|doge|shib|bonk|jup|ray)\\b", "i"⟩,
      ⟨"\\$[A-Z]\x7b2,10\x7d\\b", ""⟩,
      ⟨"\\b(swap|trade|buy|sell|stake|unstake|bridge|transfer|send|deposit|withdraw)\\b", "i"⟩,
      ⟨"\\b(wallet|balance|portfolio|token|coin|crypto|defi|nft|mint)\\b", "i"⟩,
      ⟨"\\b(solana|ethereum|bitcoin|polygon|avalanche|arbitrum|optimism|base)\\b", "i"⟩,
      ⟨"\\b(jupiter|raydium|orca|uniswap|aave|compound|lido)\\b", "i"⟩,
      ⟨"\\b(dex|cex|amm|liquidity|pool|yield|apy|apr|tvl)\\b", "i"⟩],
    structural := [
      fun msg => if hasDollarDigit msg.data then 2 else 0,
      fun msg => if rt ⟨"0x[0-9a-fA-F]\x7b10,\x7d", ""⟩ msg then 3 else 0,
      fun msg => if rt ⟨"\\b[1-9A-HJ-NP-Za-km-z]\x7b32,44\x7d\\b", ""⟩ msg then 2 else 0],
    threshold := 3,
    matchWeight := 2,
    tools := ["exec", "message", "web_fetch", "web_search"],
    memory := ⟨8, 300, false⟩,
    thinking := "medium" },
  { name := "media",
    patterns := [
      ⟨"\\b(image|picture|photo|draw|paint|sketch|illustration|art|render)\\b", "i"⟩,
      ⟨"\\b(generate|create|make)\\s+(an?\\s+)?(image|picture|photo|art)", "i"⟩,
      ⟨"\\b(speak|say|read\\s+aloud|tts|text[\\s-]to[\\s-]speech|voice|narrate)\\b", "i"⟩,
      ⟨"\\b(transcribe|stt|speech[\\s-]to[\\s-]text|listen|audio|recording)\\b", "i"⟩,
      ⟨"\\b(describe\\s+(this|the)\\s+(image|picture|photo|screenshot))", "i"⟩],
    structural := [],
    threshold := 3,
    matchWeight := 3,
    tools := ["exec", "message"],
    memory := ⟨3, 150, false⟩,
    thinking := "off" },
  { name := "monitoring",
    patterns := [
      ⟨"\\b(status|health|healthcheck|uptime|ping)\\b", "i"⟩,
      ⟨"\\b(gpu|vram|cpu|ram|memory|disk|temperature|temp|fan|power|watt)\\b", "i"⟩,
      ⟨"\\b(service|services|server|process|daemon|systemd|systemctl)\\b", "i"⟩,
      ⟨"\\b(monitor|dashboard|metrics|usage|load|utilization)\\b", "i"⟩,
      ⟨"\\b(nvidia[-\\s]?smi|htop|top|df|free)\\b", "i"⟩],
    structural := [],
    threshold := 3,
    matchWeight := 2,
    tools := ["exec", "message"],
    memory := ⟨3, 150, false⟩,
    thinking := "off" },
  { name := "memory",
    patterns := [
      ⟨"\\b(remember|recall|you\\s+said|you\\s+told\\s+me|you\\s+mentioned)\\b", "i"⟩,
      ⟨"\\b(last\\s+time|earlier|yesterday|before|previously|we\\s+discussed|we\\s+talked)\\b", "i"⟩,
      ⟨"\\b(do\\s+you\\s+know|did\\s+you|have\\s+you)\\s.*(remember|forget)", "i"⟩,
      ⟨"\\b(what\\s+did\\s+(i|we|you)\\s+(say|discuss|talk|decide))", "i"⟩,
      ⟨"\\b(history|conversation|chat\\s+log|past)\\b", "i"⟩],
    structural := [],
    threshold := 3,
    matchWeight := 3,
    tools := ["memory_search", "memory_get", "message"],
    memory := ⟨25, 1000, false⟩,
    thinking := "low" },
  complexCategory rt]

-- ── context-planner.ts: classifier ──────────────────────────────────────

/-- `config?.categories?.[name]` (JS object property lookup). -/
def categoryOverride (config : Option ContextPlannerConfig) (name : String) :
    Option ContextPlannerCategoryOverride :=
  (config.bind (fun c => c.categories)).bind (fun cs => cs.lookup name)

/-- `scoreCategory` (context-planner.ts).  `rt` interprets the category's
regex literals; `extraTest` interprets config-supplied extra patterns,
`none` standing for the silently-skipped invalid pattern. -/
def scoreCategory (rt : RegexTest) (extraTest : ExtraPatternTest) (msg : String)
    (cat : CategoryDef) (config : Option ContextPlannerConfig) : Nat :=
  if ((categoryOverride config cat.name).bind (fun o => o.disabled)) = some true then 0
  else
    let score := cat.patterns.foldl
      (fun s p => if rt p msg then s + cat.matchWeight else s) 0
    let score := match (categoryOverride config cat.name).bind (fun o => o.extraPatterns) with
      | some ps => ps.foldl
          (fun s p => match extraTest p msg with
            | some true => s + cat.matchWeight
            | _ => s) score
      | none => score
    let score := cat.structural.foldl (fun s check => s + check msg) score
    if cat.name = "complex" then
      let threshold := (config.bind (fun c => c.complexThreshold)).getD 300
      if utf16Length msg < threshold then score - 3 else score
    else score

/-- `FALLBACK_PLAN` (context-planner.ts). -/
def FALLBACK_PLAN : ContextPlan :=
  { categories := []
    toolAllowlist := none
    thinkLevel := "low"
    memoryParams := ⟨15, 500, false⟩
    hint := none }

/-- The `matched` list built by `classifyMessage`'s scoring loop. -/
def matchedCategories (rt : RegexTest) (extraTest : ExtraPatternTest) (msg : String)
    (config : Option ContextPlannerConfig) : List (CategoryDef × Nat) :=
  (CATEGORIES rt).filterMap (fun cat =>
    let score := scoreCategory rt extraTest msg cat config
    if score ≥ cat.threshold then some (cat, score) else none)

/-- `Set`-faithful tool union: add `t` unless already present, preserving
insertion order (JS `Set` iteration order). -/
def addTool (l : List String) (t : String) : List String :=
  if t ∈ l then l else l ++ [t]

/-- The tool-allowlist section of `classifyMessage`: union of matched
categories' tools, per-category `extraTools`, and `alwaysInclude`, unless
a matched category has an empty tool list or filtering is disabled. -/
def buildToolAllowlist (config : Option ContextPlannerConfig)
    (matched : List (CategoryDef × Nat)) : Option (List String) :=
  let hasComplexOrFullToolSet := matched.any (fun m => m.1.tools.length == 0)
  if hasComplexOrFullToolSet = false ∧ (config.bind (fun c => c.toolFiltering)) ≠ some false then
    let toolSet := matched.foldl (fun acc m =>
      let acc := m.1.tools.foldl addTool acc
      match (categoryOverride config m.1.name).bind (fun o => o.extraTools) with
      | some extras => extras.foldl addTool acc
      | none => acc) []
    let toolSet := match config.bind (fun c => c.alwaysInclude) with
      | some al => al.foldl addTool toolSet
      | none => toolSet
    some toolSet
  else none

/-- The memory-params section of `classifyMessage`: one pass over
`matched` keeping running maxima of `maxFacts`/`maxTokens` and the
running conjunction `allSkip`. -/
def mergeMemoryParams (config : Option ContextPlannerConfig)
    (matched : List (CategoryDef × Nat)) : MemoryPolicy :=
  let merged := matched.foldl (fun (acc : Nat × Nat × Bool) m =>
    (if m.1.memory.maxFacts > acc.1 then m.1.memory.maxFacts else acc.1,
     if m.1.memory.maxTokens > acc.2.1 then m.1.memory.maxTokens else acc.2.1,
     if !m.1.memory.skip then false else acc.2.2)) (0, 0, true)
  if (config.bind (fun c => c.memoryTuning)) ≠ some false then
    ⟨merged.1, merged.2.1, merged.2.2⟩
  else FALLBACK_PLAN.memoryParams

/-- The `catThinking` local of `classifyMessage`: the category's thinking
level after the per-category config override (JS truthiness: an empty
override string falls back to the category's own level). -/
def effectiveThinkLevel (config : Option ContextPlannerConfig) (cat : CategoryDef) : String :=
  match (categoryOverride config cat.name).bind (fun o => o.thinkingLevel) with
  | some o => if o = "" then cat.thinking else o
  | none => cat.thinking

/-- The thinking-level section of `classifyMessage`: fold of
`maxThinkLevel` over the matched categories, starting from `"off"`. -/
def mergeThinkLevel (config : Option ContextPlannerConfig)
    (matched : List (CategoryDef × Nat)) : String :=
  if (config.bind (fun c => c.thinkingTuning)) ≠ some false then
    matched.foldl (fun lvl m => maxThinkLevel lvl (effectiveThinkLevel config m.1)) "off"
  else "low"

/-- The hint section of `classifyMessage`.  The source field
`promptAnnotation` is modelled as `promptAnnotate`. -/
def buildHint (config : Option ContextPlannerConfig) (categories : List String)
    (toolAllowlist : Option (List String)) (thinkLevel : String) : Option String :=
  if (config.bind (fun c => c.promptAnnotate)) ≠ some false then
    some ("[Context: " ++ String.intercalate " + " categories ++ " task | tools: " ++
      (match toolAllowlist with
       | some l => toString l.length
       | none => "all") ++ " | thinking: " ++ thinkLevel ++ "]")
  else none

/-- `classifyMessage` (context-planner.ts). -/
def classifyMessage (rt : RegexTest) (extraTest : ExtraPatternTest)
    (message : String) (config : Option ContextPlannerConfig) : ContextPlan :=
  if config.bind (fun c => c.enabled) = some false then FALLBACK_PLAN
  else
    let msg := jsTrim message
    if msg = "" then FALLBACK_PLAN
    else
      let matched := matchedCategories rt extraTest msg config
      if matched.length = 0 then FALLBACK_PLAN
      else
        let categories := matched.map (fun m => m.1.name)
        let toolAllowlist := buildToolAllowlist config matched
        let memoryParams := mergeMemoryParams config matched
        let thinkLevel := mergeThinkLevel config matched
        let hint := buildHint config categories toolAllowlist thinkLevel
        { categories := categories
          toolAllowlist := toolAllowlist
          memoryParams := memoryParams
          thinkLevel := thinkLevel
          hint := hint }

-- ── memory-cortex-client.ts / agent-runner-memory-cortex.ts ─────────────

/-- `MemoryCortexFact` (memory-cortex-client.ts); the JS float fields
`importance` and `score` are modelled as `Int`. -/
structure MemoryCortexFact where
  id : Nat
  user_id : Option String := none
  topic : Option String := none
  fact : String
  importance : Option Int := none
  created_at : Option Int := none
  score : Option Int := none
  source : Option String := none
deriving DecidableEq, Repr

/-- `HybridSearchResult` (memory-cortex-client.ts). -/
structure HybridSearchResult where
  results : List MemoryCortexFact
  count : Nat
deriving DecidableEq, Repr

/-- `MemoryCortexConfig` (types.infrastructure.ts), restricted to the
fields `agent-runner-memory-cortex.ts` reads. -/
structure MemoryCortexConfig where
  enabled : Option Bool := none
  autoRecall : Option Bool := none
  autoIngest : Option Bool := none
  skipHeartbeat : Option Bool := none
  recallTimeoutMs : Option Nat := none
  recallMaxTokens : Option Nat := none
  recallMaxFacts : Option Nat := none
  synthesisCacheTtlMs : Option Nat := none
  middlewareHost : Option String := none
  middlewarePort : Option Nat := none
deriving DecidableEq, Repr

/-- `cfg.infrastructure` as far as this module reads it. -/
structure InfrastructureConfig where
  memoryCortex : Option MemoryCortexConfig := none
deriving DecidableEq, Repr

/-- `OpenClawConfig` as far as this module reads it. -/
structure OpenClawConfig where
  infrastructure : Option InfrastructureConfig := none
deriving DecidableEq, Repr

/-- The `memoryCortexSynthesis` session-cache record written by
`fireAsyncSynthesis` (agent-runner-memory-cortex.ts). -/
structure MemoryCortexSynthesis where
  query : String
  response : String
  cachedAt : Int
deriving DecidableEq, Repr

/-- `SessionEntry` (config/sessions.ts), restricted to the field
`runMemoryCortexRecall` reads. -/
structure SessionEntry where
  memoryCortexSynthesis : Option MemoryCortexSynthesis := none
deriving DecidableEq, Repr

/-- `MemoryCortexRecallResult` (agent-runner-memory-cortex.ts). -/
structure MemoryCortexRecallResult where
  memoryContext : Option String
  factsCount : Nat
deriving DecidableEq, Repr

/-- `resolveMemoryCortexConfig` (agent-runner-memory-cortex.ts):
`undefined` unless `cfg.infrastructure?.memoryCortex?.enabled` is truthy. -/
def resolveMemoryCortexConfig (cfg : OpenClawConfig) : Option MemoryCortexConfig :=
  match cfg.infrastructure.bind (fun i => i.memoryCortex) with
  | some mc => if mc.enabled = some true then some mc else none
  | none => none

/-- Comparator of `formatFactsAsContext`'s `toSorted`: importance
descending, then score descending (JS `impB - impA` / `sB - sA`). -/
def factCmp (a b : MemoryCortexFact) : Int :=
  let impA := a.importance.getD 0
  let impB := b.importance.getD 0
  if impB ≠ impA then impB - impA else (b.score.getD 0) - (a.score.getD 0)

/-- Stable insertion step for `sortFacts`. -/
def insertFact (a : MemoryCortexFact) : List MemoryCortexFact → List MemoryCortexFact
  | [] => [a]
  | b :: rest => if factCmp a b < 0 then a :: b :: rest else b :: insertFact a rest

/-- `[...facts].toSorted(comparator)` (stable). -/
def sortFacts (l : List MemoryCortexFact) : List MemoryCortexFact :=
  l.foldr insertFact []

/-- One bullet line of the facts list: `- [topic] fact (importance: i)`. -/
def renderFact (f : MemoryCortexFact) : String :=
  let topic := match f.topic with
    | some t => if t ≠ "" then "[" ++ t ++ "]" else "[general]"
    | none => "[general]"
  let imp := match f.importance with
    | some i => " (importance: " ++ toString i ++ ")"
    | none => ""
  "- " ++ topic ++ " " ++ f.fact ++ imp

/-- The `lines` array built by `formatFactsAsContext`
(agent-runner-memory-cortex.ts) before joining and truncation. -/
def formatLines (facts : List MemoryCortexFact)
    (cachedSynthesis : Option MemoryCortexSynthesis)
    (synthesisCacheTtlMs : Option Nat) (now : Int) : List String :=
  let sorted := sortFacts facts
  let ttl : Nat := synthesisCacheTtlMs.getD 300000
  let lines := ["## Long-Term Memories", ""]
  let lines := match cachedSynthesis with
    | some s =>
      if s.response ≠ "" && now - s.cachedAt < (ttl : Int) then
        lines ++ ["**Summary (from previous context):** " ++ s.response, ""]
      else lines
    | none => lines
  if sorted.length > 0 then
    lines ++ ["**Individual facts:**"] ++ sorted.map renderFact
  else lines

/-- `formatFactsAsContext` (agent-runner-memory-cortex.ts); `now` models
`Date.now()`. -/
def formatFactsAsContext (facts : List MemoryCortexFact) (maxTokens : Nat)
    (cachedSynthesis : Option MemoryCortexSynthesis)
    (synthesisCacheTtlMs : Option Nat) (now : Int) : String :=
  if facts.length = 0 && cachedSynthesis = none then ""
  else
    let block := String.intercalate "\n" (formatLines facts cachedSynthesis synthesisCacheTtlMs now)
    let maxChars := maxTokens * 4
    if utf16Length block > maxChars then utf16Take block maxChars else block

/-- The single network request `runMemoryCortexRecall` can issue
(arguments of its `hybridSearch` call). -/
structure HybridSearchRequest where
  query : String
  userId : Option String
  limit : Nat
  timeoutMs : Nat
deriving DecidableEq, Repr

/-- The parameter record of `runMemoryCortexRecall`; `commandBody` is
`Option` because the source guards it with `?.`, and `senderName` stands
for `followupRun.run.senderName`. -/
structure RecallInput where
  cfg : OpenClawConfig
  isHeartbeat : Bool
  sessionEntry : Option SessionEntry := none
  sessionStore : Option (List (String × SessionEntry)) := none
  sessionKey : Option String := none
  storePath : Option String := none
  commandBody : Option String
  senderName : Option String := none
deriving Repr

/-- `runMemoryCortexRecall` (agent-runner-memory-cortex.ts).
`searchOutcome` is the value of the awaited `hybridSearch` call (`none` =
timeout, non-2xx status, or transport error, all of which the client
catches and returns as `null`); `now` models `Date.now()`.  The second
component lists the hybrid-search network requests issued, in order; the
fire-and-forget synthesis and the session-store writes do not affect the
returned value and are not modelled. -/
def runMemoryCortexRecall (p : RecallInput)
    (searchOutcome : Option HybridSearchResult) (now : Int) :
    MemoryCortexRecallResult × List HybridSearchRequest :=
  let noResult : MemoryCortexRecallResult := ⟨none, 0⟩
  match resolveMemoryCortexConfig p.cfg with
  | none => (noResult, [])
  | some mc =>
    if mc.autoRecall ≠ some true then (noResult, [])
    else if p.isHeartbeat && mc.skipHeartbeat ≠ some false then (noResult, [])
    else
      let query := (p.commandBody.map jsTrim).getD ""
      if utf16Length query < 3 then (noResult, [])
      else
        let request : HybridSearchRequest :=
          ⟨query, p.senderName, mc.recallMaxFacts.getD 15, mc.recallTimeoutMs.getD 200⟩
        let searchResult := searchOutcome
        let facts := (searchResult.map (fun r => r.results)).getD []
        let factsCount := facts.length
        let cachedSynthesis := p.sessionEntry.bind (fun e => e.memoryCortexSynthesis)
        let memoryContext : Option String :=
          if factsCount > 0 || cachedSynthesis ≠ none then
            some (formatFactsAsContext facts (mc.recallMaxTokens.getD 500)
              cachedSynthesis mc.synthesisCacheTtlMs now)
          else none
        let memoryContext := match memoryContext with
          | some s => if s = "" then none else some s
          | none => none
        (⟨memoryContext, factsCount⟩, [request])

-- ── Claim-side measurement definitions ──────────────────────────────────

/-- The keyword-pattern portion of `scoreCategory`'s score (the first
`for` loop): `matchWeight` per matching category pattern. -/
def keywordPatternScore (rt : RegexTest) (msg : String) (cat : CategoryDef) : Nat :=
  cat.patterns.foldl (fun s p => if rt p msg then s + cat.matchWeight else s) 0

/-- The config-extra-pattern portion of `scoreCategory`'s score. -/
def extraPatternScore (extraTest : ExtraPatternTest) (msg : String)
    (cat : CategoryDef) (config : Option ContextPlannerConfig) : Nat :=
  match (categoryOverride config cat.name).bind (fun o => o.extraPatterns) with
  | some ps => ps.foldl (fun s p =>
      match extraTest p msg with
      | some true => s + cat.matchWeight
      | _ => s) 0
  | none => 0

/-- The structural-signal portion of `scoreCategory`'s score. -/
def structuralScore (msg : String) (cat : CategoryDef) : Nat :=
  cat.structural.foldl (fun s check => s + check msg) 0

/-- The total category score before the complex-category short-message
discount. -/
def rawCategoryScore (rt : RegexTest) (extraTest : ExtraPatternTest) (msg : String)
    (cat : CategoryDef) (config : Option ContextPlannerConfig) : Nat :=
  keywordPatternScore rt msg cat + extraPatternScore extraTest msg cat config +
    structuralScore msg cat

/-- Ordinal of a thinking level, defaulting to 0 exactly as
`THINK_LEVEL_ORDER[x] ?? 0` does. -/
def thinkOrd (s : String) : Nat :=
  (THINK_LEVEL_ORDER s).getD 0

/-- Whether a string is one of the six thinking levels. -/
def validThinkLevel (s : String) : Bool :=
  (THINK_LEVEL_ORDER s).isSome

/-- The thinking level of a given ordinal, under
`off < minimal < low < medium < high < xhigh`. -/
def levelOfOrd : Nat → String
  | 0 => "off"
  | 1 => "minimal"
  | 2 => "low"
  | 3 => "medium"
  | 4 => "high"
  | _ => "xhigh"

/-- A canonical serialization of a plan, standing in for
`JSON.stringify`: equal serializations exactly when plans are equal. -/
def serializePlan (p : ContextPlan) : String :=
  let quote := fun (s : String) => "\"" ++ s ++ "\""
  let arr := fun (l : List String) => "[" ++ String.intercalate "," (l.map quote) ++ "]"
  "\x7bcategories:" ++ arr p.categories ++
    ",toolAllowlist:" ++ (match p.toolAllowlist with
      | some l => arr l
      | none => "null") ++
    ",memoryParams:\x7bmaxFacts:" ++ toString p.memoryParams.maxFacts ++
    ",maxTokens:" ++ toString p.memoryParams.maxTokens ++
    ",skip:" ++ (if p.memoryParams.skip then "true" else "false") ++
    "\x7d,thinkLevel:" ++ quote p.thinkLevel ++
    ",hint:" ++ (match p.hint with
      | some h => quote h
      | none => "null") ++ "\x7d"

/-- The `**Summary (from previous context):** …` line pushed by
`formatFactsAsContext` for a fresh cached synthesis. -/
def summaryLine (s : MemoryCortexSynthesis) : String :=
  "**Summary (from previous context):** " ++ s.response

-- ── Concrete oracles and inputs used by witnesses and counterexamples ──

/-- Regex oracle reporting no match for any pattern. -/
def rtFalse : RegexTest := fun _ _ => false

/-- Regex oracle reporting a match for every pattern. -/
def rtTrue : RegexTest := fun _ _ => true

/-- Extra-pattern oracle for configs without extra patterns (never
consulted there). -/
def exNone : ExtraPatternTest := fun _ _ => none

/-- Truthful regex oracle for the message `"hey yo"`: of all patterns in
`CATEGORIES`, exactly the casual greeting pattern `^(hey|hi|…)\b/i`
matches it. -/
def rtHey : RegexTest := fun r _ => r.pattern == casualGreetingPattern.pattern

/-- Truthful regex oracle for the message `"analyze multiple options"`:
of all patterns in `CATEGORIES`, exactly the complex-category patterns
`\b(…|plan|analyze|…)\b/i` (via "analyze") and
`\b(multiple|several|…)\b/i` (via "multiple") match it. -/
def rtAnalyze : RegexTest := fun r _ =>
  r.pattern == complexPlanPattern.pattern || r.pattern == complexMultiplePattern.pattern

/-- A planner config with every feature switched on. -/
def allOnConfig : ContextPlannerConfig :=
  { enabled := some true, toolFiltering := some true, memoryTuning := some true,
    thinkingTuning := some true, promptAnnotate := some true,
    alwaysInclude := some ["message"], complexThreshold := some 300,
    fallbackToFull := some true, categories := some [] }

/-- A memory-cortex config with the service enabled and auto-recall on. -/
def mcEnabled : MemoryCortexConfig :=
  { enabled := some true, autoRecall := some true }

/-- An `OpenClawConfig` carrying `mcEnabled`. -/
def cfgEnabled : OpenClawConfig :=
  { infrastructure := some { memoryCortex := some mcEnabled } }

/-- A sample fact returned by the hybrid search. -/
def exampleFact : MemoryCortexFact :=
  { id := 1, fact := "user likes puns", importance := some 7 }

/-- A sample cached synthesis written at t = 1000 ms. -/
def exampleSynthesis : MemoryCortexSynthesis :=
  ⟨"what did we discuss", "Earlier we discussed Docker.", 1000⟩

/-- Recall invocation for the casual message `"hey yo"` (whose plan's
memory policy has `skip = true`), no session cache. -/
def recallInputHey : RecallInput :=
  { cfg := cfgEnabled, isHeartbeat := false, commandBody := some "hey yo" }

/-- Recall invocation whose session entry holds a cached synthesis. -/
def recallInputWithSynthesis : RecallInput :=
  { cfg := cfgEnabled, isHeartbeat := false,
    sessionEntry := some { memoryCortexSynthesis := some exampleSynthesis },
    commandBody := some "what did we discuss" }

-- ── Helper lemmas ───────────────────────────────────────────────────────

theorem jsTrim_of_all_whitespace (s : String) (h : s.data.all isJsWhitespace = true) :
    jsTrim s = "" := by
  unfold jsTrim
  have h1 : s.data.dropWhile isJsWhitespace = [] := by
    rw [List.dropWhile_eq_nil_iff]
    intro x hx
    exact List.all_eq_true.mp h x hx
  rw [h1]
  rfl

theorem classifyMessage_disabled (rt : RegexTest) (ex : ExtraPatternTest)
    (message : String) (config : Option ContextPlannerConfig)
    (h : config.bind (fun c => c.enabled) = some false) :
    classifyMessage rt ex message config = FALLBACK_PLAN := by
  unfold classifyMessage
  rw [if_pos h]

theorem classifyMessage_of_trim_empty (rt : RegexTest) (ex : ExtraPatternTest)
    (message : String) (config : Option ContextPlannerConfig)
    (h : jsTrim message = "") :
    classifyMessage rt ex message config = FALLBACK_PLAN := by
  by_cases h1 : config.bind (fun c => c.enabled) = some false
  · exact classifyMessage_disabled rt ex message config h1
  · unfold classifyMessage
    rw [if_neg h1]
    simp only [h, if_pos]

theorem classifyMessage_of_no_match (rt : RegexTest) (ex : ExtraPatternTest)
    (message : String) (config : Option ContextPlannerConfig)
    (h : matchedCategories rt ex (jsTrim message) config = []) :
    classifyMessage rt ex message config = FALLBACK_PLAN := by
  by_cases h1 : config.bind (fun c => c.enabled) = some false
  · exact classifyMessage_disabled rt ex message config h1
  by_cases h0 : jsTrim message = ""
  · exact classifyMessage_of_trim_empty rt ex message config h0
  unfold classifyMessage
  rw [if_neg h1]
  simp only [if_neg h0, h, List.length_nil, if_pos]

theorem classifyMessage_of_matched (rt : RegexTest) (ex : ExtraPatternTest)
    (message : String) (config : Option ContextPlannerConfig)
    (h1 : config.bind (fun c => c.enabled) ≠ some false)
    (h0 : jsTrim message ≠ "")
    (h2 : matchedCategories rt ex (jsTrim message) config ≠ []) :
    classifyMessage rt ex message config =
      { categories := (matchedCategories rt ex (jsTrim message) config).map (fun m => m.1.name)
        toolAllowlist := buildToolAllowlist config (matchedCategories rt ex (jsTrim message) config)
        memoryParams := mergeMemoryParams config (matchedCategories rt ex (jsTrim message) config)
        thinkLevel := mergeThinkLevel config (matchedCategories rt ex (jsTrim message) config)
        hint := buildHint config
          ((matchedCategories rt ex (jsTrim message) config).map (fun m => m.1.name))
          (buildToolAllowlist config (matchedCategories rt ex (jsTrim message) config))
          (mergeThinkLevel config (matchedCategories rt ex (jsTrim message) config)) } := by
  have h2l : (matchedCategories rt ex (jsTrim message) config).length ≠ 0 := by
    intro hc
    exact h2 (List.length_eq_zero.mp hc)
  unfold classifyMessage
  rw [if_neg h1]
  simp only [if_neg h0, if_neg h2l]

-- ── C9 ──────────────────────────────────────────────────────────────────

/-- Claim C9: `classifyMessage` is a pure, deterministic function — in
this embedding it is a Lean function of exactly `(message, config)` (plus
the regex oracles, fixed per call), so two calls with identical arguments
return structurally identical plans with identical serializations; there
is no state and no randomness by construction. -/
theorem c9_classifier_deterministic (rt : RegexTest) (ex : ExtraPatternTest)
    (message : String) (config : Option ContextPlannerConfig) :
    classifyMessage rt ex message config = classifyMessage rt ex message config ∧
    serializePlan (classifyMessage rt ex message config) =
      serializePlan (classifyMessage rt ex message config) :=
  ⟨rfl, rfl⟩

-- ── C10 ─────────────────────────────────────────────────────────────────

/-- Claim C10: for every message that is empty or consists only of
whitespace, `classifyMessage` returns the fallback plan exactly —
`categories = []`, `toolAllowlist = null`, `thinkLevel = "low"`,
`memoryParams = {maxFacts: 15, maxTokens: 500, skip: false}`,
`hint = null` — for every config. -/
theorem c10_whitespace_fallback (rt : RegexTest) (ex : ExtraPatternTest)
    (message : String) (config : Option ContextPlannerConfig)
    (h : message.data.all isJsWhitespace = true) :
    classifyMessage rt ex message config =
      { categories := [], toolAllowlist := none,
        memoryParams := { maxFacts := 15, maxTokens := 500, skip := false },
        thinkLevel := "low", hint := none } :=
  classifyMessage_of_trim_empty rt ex message config (jsTrim_of_all_whitespace message h)

/-- Witness for C10 at the whitespace-only message `" \t\n"` and a config
with every feature enabled. -/
theorem c10_whitespace_fallback_witness :
    (" \t\n".data.all isJsWhitespace = true) ∧
    classifyMessage rtTrue exNone " \t\n" (some allOnConfig) =
      { categories := [], toolAllowlist := none,
        memoryParams := { maxFacts := 15, maxTokens := 500, skip := false },
        thinkLevel := "low", hint := none } :=
  ⟨by decide, c10_whitespace_fallback rtTrue exNone " \t\n" (some allOnConfig) (by decide)⟩

-- ── C1 ──────────────────────────────────────────────────────────────────

/-- Claim C1 (refuted; the code contradicts the spec and the repo's
design doc): `runMemoryCortexRecall` takes no memory-policy input at all,
so for the casual message `"hey yo"` — whose plan's memory policy has
`skip = true` — it still issues the hybrid-search network request and
returns the facts the service produced, instead of skipping with
`{memoryContext: null, factsCount: 0}`. -/
theorem c1_skip_policy_not_honored :
    (classifyMessage rtHey exNone "hey yo" none).memoryParams.skip = true ∧
    (runMemoryCortexRecall recallInputHey (some ⟨[exampleFact], 1⟩) 5000).2 =
      [⟨"hey yo", none, 15, 200⟩] ∧
    (runMemoryCortexRecall recallInputHey (some ⟨[exampleFact], 1⟩) 5000).1.factsCount = 1 ∧
    (runMemoryCortexRecall recallInputHey (some ⟨[exampleFact], 1⟩) 5000).1.memoryContext ≠ none :=
  ⟨by decide, by decide, by decide, by decide⟩

-- ── C2 ──────────────────────────────────────────────────────────────────

/-- Counterexample to C2 as stated: when the primary hybrid-search call
fails (`none`) but the session entry holds a fresh cached synthesis, the
result is not the no-context result — the synthesis is rendered into a
non-null context block (with `factsCount = 0`). -/
theorem c2_counterexample_cached_synthesis :
    (runMemoryCortexRecall recallInputWithSynthesis none 2000).1.memoryContext ≠ none ∧
    (runMemoryCortexRecall recallInputWithSynthesis none 2000).1.factsCount = 0 :=
  ⟨by decide, by decide⟩

/-- Claim C2 as amended: when the primary hybrid-search call times out,
returns non-success, or fails in transport (all modelled by the client's
caught `null` outcome) and the session holds no cached synthesis,
`runMemoryCortexRecall` returns `{memoryContext: null, factsCount: 0}`,
and it never issues more than one network request (no synchronous retry);
no exception escapes, the embedded function being total. -/
theorem c2_failed_search_no_context (p : RecallInput) (now : Int)
    (h : p.sessionEntry.bind (fun e => e.memoryCortexSynthesis) = none) :
    (runMemoryCortexRecall p none now).1 = ⟨none, 0⟩ ∧
    (runMemoryCortexRecall p none now).2.length ≤ 1 := by
  unfold runMemoryCortexRecall
  cases hmc : resolveMemoryCortexConfig p.cfg with
  | none => exact ⟨rfl, by simp⟩
  | some mc =>
    simp only [h]
    split_ifs <;> simp [formatFactsAsContext]

/-- Witness for C2 (amended) at a concrete cache-less invocation. -/
theorem c2_failed_search_no_context_witness :
    (recallInputHey.sessionEntry.bind (fun e => e.memoryCortexSynthesis) = none) ∧
    (runMemoryCortexRecall recallInputHey none 77).1 = ⟨none, 0⟩ :=
  ⟨by decide, (c2_failed_search_no_context recallInputHey 77 (by decide)).1⟩

-- ── C5 ──────────────────────────────────────────────────────────────────

/-- Claim C5: if any matched category is "unrestricted" (empty tools
list) and capability filtering is enabled, the plan's `toolAllowlist` is
`null`, regardless of the other matched categories. -/
theorem c5_unrestricted_forces_null (rt : RegexTest) (ex : ExtraPatternTest)
    (message : String) (config : Option ContextPlannerConfig)
    (hU : (matchedCategories rt ex (jsTrim message) config).any
      (fun m => m.1.tools.length == 0) = true)
    (_hF : config.bind (fun c => c.toolFiltering) ≠ some false) :
    (classifyMessage rt ex message config).toolAllowlist = none := by
  by_cases h1 : config.bind (fun c => c.enabled) = some false
  · rw [classifyMessage_disabled rt ex message config h1]; rfl
  by_cases h0 : jsTrim message = ""
  · rw [classifyMessage_of_trim_empty rt ex message config h0]; rfl
  have h2 : matchedCategories rt ex (jsTrim message) config ≠ [] := by
    intro hc
    rw [hc] at hU
    simp at hU
  rw [classifyMessage_of_matched rt ex message config h1 h0 h2]
  show buildToolAllowlist config _ = none
  unfold buildToolAllowlist
  rw [if_neg]
  intro hc
  rw [hU] at hc
  exact absurd hc.1 (by simp)

/-- Witness for C5: with an all-matching regex oracle, `"a? b? c?"`
matches (among others) the `complex` category, whose tool list is empty,
and the resulting allowlist is `null` with filtering enabled. -/
theorem c5_unrestricted_forces_null_witness :
    ((matchedCategories rtTrue exNone (jsTrim "a? b? c?") none).any
      (fun m => m.1.tools.length == 0) = true) ∧
    (classifyMessage rtTrue exNone "a? b? c?" none).toolAllowlist = none :=
  ⟨by decide, c5_unrestricted_forces_null rtTrue exNone "a? b? c?" none (by decide) (by decide)⟩

-- ── C8 counterexample ───────────────────────────────────────────────────

/-- Counterexample to C8 as stated: a cached synthesis whose age has
reached the TTL is not rendered "as if no synthesis were cached" — with
zero facts, the stale entry defeats the empty-input guard and produces a
header-only block, while an absent cache yields the empty string. -/
theorem c8_counterexample_stale_header_block :
    ((400000 : Int) - exampleSynthesis.cachedAt ≥ 300000) ∧
    formatFactsAsContext [] 500 (some exampleSynthesis) none 400000 = "## Long-Term Memories\n" ∧
    formatFactsAsContext [] 500 none none 400000 = "" :=
  ⟨by decide, by decide, rfl⟩

-- ── C4 ──────────────────────────────────────────────────────────────────

theorem mergeMemory_fold_spec (l : List (CategoryDef × Nat)) : ∀ a b c,
    l.foldl (fun (acc : Nat × Nat × Bool) m =>
      (if m.1.memory.maxFacts > acc.1 then m.1.memory.maxFacts else acc.1,
       if m.1.memory.maxTokens > acc.2.1 then m.1.memory.maxTokens else acc.2.1,
       if !m.1.memory.skip then false else acc.2.2)) (a, b, c) =
    ((l.map (fun m => m.1.memory.maxFacts)).foldl Nat.max a,
     (l.map (fun m => m.1.memory.maxTokens)).foldl Nat.max b,
     c && l.all (fun m => m.1.memory.skip)) := by
  induction l with
  | nil => intro a b c; simp
  | cons hd tl ih =>
    intro a b c
    simp only [List.foldl_cons, List.map_cons, List.all_cons]
    rw [ih]
    have e1 : (if hd.1.memory.maxFacts > a then hd.1.memory.maxFacts else a) =
        Nat.max a hd.1.memory.maxFacts := by
      simp only [Nat.max_def]
      split_ifs <;> omega
    have e2 : (if hd.1.memory.maxTokens > b then hd.1.memory.maxTokens else b) =
        Nat.max b hd.1.memory.maxTokens := by
      simp only [Nat.max_def]
      split_ifs <;> omega
    rw [e1, e2]
    cases hs : hd.1.memory.skip <;> simp [Bool.and_assoc]

/-- Claim C4: with memory tuning enabled and a non-empty matched set, the
plan's `memoryParams.maxFacts` and `memoryParams.maxTokens` are the
per-field maxima over the matched categories' memory policies (a `max`
fold, never a sum), and `skip` is true iff every matched category
requests skip. -/
theorem c4_memory_params_are_maxima (rt : RegexTest) (ex : ExtraPatternTest)
    (message : String) (config : Option ContextPlannerConfig)
    (h1 : config.bind (fun c => c.enabled) ≠ some false)
    (h0 : jsTrim message ≠ "")
    (h2 : matchedCategories rt ex (jsTrim message) config ≠ [])
    (hM : config.bind (fun c => c.memoryTuning) ≠ some false) :
    (classifyMessage rt ex message config).memoryParams.maxFacts =
      ((matchedCategories rt ex (jsTrim message) config).map
        (fun m => m.1.memory.maxFacts)).foldl Nat.max 0 ∧
    (classifyMessage rt ex message config).memoryParams.maxTokens =
      ((matchedCategories rt ex (jsTrim message) config).map
        (fun m => m.1.memory.maxTokens)).foldl Nat.max 0 ∧
    ((classifyMessage rt ex message config).memoryParams.skip = true ↔
      ∀ m ∈ matchedCategories rt ex (jsTrim message) config, m.1.memory.skip = true) := by
  rw [classifyMessage_of_matched rt ex message config h1 h0 h2]
  show (mergeMemoryParams config _).maxFacts = _ ∧
    (mergeMemoryParams config _).maxTokens = _ ∧
    ((mergeMemoryParams config _).skip = true ↔ _)
  unfold mergeMemoryParams
  rw [if_pos hM, mergeMemory_fold_spec]
  refine ⟨rfl, rfl, ?_⟩
  simp [List.all_eq_true]

/-- Witness for C4 at the concrete message `"hey"` (matching exactly the
casual category). -/
theorem c4_memory_params_are_maxima_witness :
    ((matchedCategories rtFalse exNone (jsTrim "hey") none).length = 1) ∧
    (classifyMessage rtFalse exNone "hey" none).memoryParams.maxFacts =
      ((matchedCategories rtFalse exNone (jsTrim "hey") none).map
        (fun m => m.1.memory.maxFacts)).foldl Nat.max 0 ∧
    ((classifyMessage rtFalse exNone "hey" none).memoryParams.skip = true ↔
      ∀ m ∈ matchedCategories rtFalse exNone (jsTrim "hey") none, m.1.memory.skip = true) :=
  ⟨by decide,
   (c4_memory_params_are_maxima rtFalse exNone "hey" none (by decide) (by decide)
     (fun hc => absurd (congrArg List.length hc) (by decide)) (by decide)).1,
   (c4_memory_params_are_maxima rtFalse exNone "hey" none (by decide) (by decide)
     (fun hc => absurd (congrArg List.length hc) (by decide)) (by decide)).2.2⟩

-- ── C6 ──────────────────────────────────────────────────────────────────

theorem mem_addTool (x t : String) (l : List String) :
    x ∈ addTool l t ↔ x ∈ l ∨ x = t := by
  unfold addTool
  split
  · constructor
    · exact Or.inl
    · rintro (hx | rfl)
      · exact hx
      · assumption
  · simp

theorem mem_foldl_addTool (ts : List String) : ∀ acc x,
    x ∈ ts.foldl addTool acc ↔ x ∈ acc ∨ x ∈ ts := by
  induction ts with
  | nil => intro acc x; simp
  | cons hd tl ih =>
    intro acc x
    simp only [List.foldl_cons]
    rw [ih, mem_addTool]
    simp [List.mem_cons]
    tauto

theorem mem_toolSet_fold (config : Option ContextPlannerConfig)
    (l : List (CategoryDef × Nat)) : ∀ acc x,
    x ∈ l.foldl (fun acc m =>
      let acc := m.1.tools.foldl addTool acc
      match (categoryOverride config m.1.name).bind (fun o => o.extraTools) with
      | some extras => extras.foldl addTool acc
      | none => acc) acc ↔
    x ∈ acc ∨ ∃ m ∈ l, x ∈ m.1.tools ∨
      x ∈ ((categoryOverride config m.1.name).bind (fun o => o.extraTools)).getD [] := by
  induction l with
  | nil => intro acc x; simp
  | cons hd tl ih =>
    intro acc x
    simp only [List.foldl_cons]
    rw [ih]
    cases hov : (categoryOverride config hd.1.name).bind (fun o => o.extraTools) with
    | none =>
      rw [mem_foldl_addTool]
      constructor
      · rintro ((hx | hx) | ⟨m, hm, hx⟩)
        · exact Or.inl hx
        · exact Or.inr ⟨hd, List.mem_cons_self hd tl, Or.inl hx⟩
        · exact Or.inr ⟨m, List.mem_cons_of_mem hd hm, hx⟩
      · rintro (hx | ⟨m, hm, hx⟩)
        · exact Or.inl (Or.inl hx)
        · rcases List.mem_cons.mp hm with rfl | hm
          · rcases hx with hx | hx
            · exact Or.inl (Or.inr hx)
            · rw [hov] at hx
              simp at hx
          · exact Or.inr ⟨m, hm, hx⟩
    | some extras =>
      rw [mem_foldl_addTool, mem_foldl_addTool]
      constructor
      · rintro (((hx | hx) | hx) | ⟨m, hm, hx⟩)
        · exact Or.inl hx
        · exact Or.inr ⟨hd, List.mem_cons_self hd tl, Or.inl hx⟩
        · exact Or.inr ⟨hd, List.mem_cons_self hd tl, Or.inr (by rw [hov]; exact hx)⟩
        · exact Or.inr ⟨m, List.mem_cons_of_mem hd hm, hx⟩
      · rintro (hx | ⟨m, hm, hx⟩)
        · exact Or.inl (Or.inl (Or.inl hx))
        · rcases List.mem_cons.mp hm with rfl | hm
          · rcases hx with hx | hx
            · exact Or.inl (Or.inl (Or.inr hx))
            · rw [hov] at hx
              exact Or.inl (Or.inr hx)
          · exact Or.inr ⟨m, hm, hx⟩

/-- Claim C6: every non-null `toolAllowlist` contains all matched
categories' tools, all their config `extraTools`, and the configured
`alwaysInclude` set. -/
theorem c6_allowlist_superset (rt : RegexTest) (ex : ExtraPatternTest)
    (message : String) (config : Option ContextPlannerConfig) (l : List String)
    (hsome : (classifyMessage rt ex message config).toolAllowlist = some l) :
    (∀ m ∈ matchedCategories rt ex (jsTrim message) config,
      (∀ t ∈ m.1.tools, t ∈ l) ∧
      (∀ t ∈ ((categoryOverride config m.1.name).bind (fun o => o.extraTools)).getD [],
        t ∈ l)) ∧
    (∀ t ∈ (config.bind (fun c => c.alwaysInclude)).getD [], t ∈ l) := by
  by_cases h1 : config.bind (fun c => c.enabled) = some false
  · rw [classifyMessage_disabled rt ex message config h1] at hsome
    simp [FALLBACK_PLAN] at hsome
  by_cases h0 : jsTrim message = ""
  · rw [classifyMessage_of_trim_empty rt ex message config h0] at hsome
    simp [FALLBACK_PLAN] at hsome
  by_cases h2 : matchedCategories rt ex (jsTrim message) config = []
  · rw [classifyMessage_of_no_match rt ex message config h2] at hsome
    simp [FALLBACK_PLAN] at hsome
  rw [classifyMessage_of_matched rt ex message config h1 h0 h2] at hsome
  have hsome' : buildToolAllowlist config (matchedCategories rt ex (jsTrim message) config) =
      some l := hsome
  unfold buildToolAllowlist at hsome'
  by_cases hcond : ((matchedCategories rt ex (jsTrim message) config).any
      (fun m => m.1.tools.length == 0) = false ∧
      config.bind (fun c => c.toolFiltering) ≠ some false)
  case neg =>
    rw [if_neg hcond] at hsome'
    exact absurd hsome' (by simp)
  case pos =>
    rw [if_pos hcond] at hsome'
    cases hal : config.bind (fun c => c.alwaysInclude) with
      | none =>
        rw [hal] at hsome'
        simp only [Option.some_inj] at hsome'
        subst hsome'
        refine ⟨?_, ?_⟩
        · intro m hm
          refine ⟨fun t ht => ?_, fun t ht => ?_⟩
          · exact (mem_toolSet_fold config _ [] t).mpr (Or.inr ⟨m, hm, Or.inl ht⟩)
          · exact (mem_toolSet_fold config _ [] t).mpr (Or.inr ⟨m, hm, Or.inr ht⟩)
        · intro t ht
          simp at ht
      | some al =>
        rw [hal] at hsome'
        simp only [Option.some_inj] at hsome'
        subst hsome'
        refine ⟨?_, ?_⟩
        · intro m hm
          refine ⟨fun t ht => ?_, fun t ht => ?_⟩
          · exact (mem_foldl_addTool al _ t).mpr
              (Or.inl ((mem_toolSet_fold config _ [] t).mpr (Or.inr ⟨m, hm, Or.inl ht⟩)))
          · exact (mem_foldl_addTool al _ t).mpr
              (Or.inl ((mem_toolSet_fold config _ [] t).mpr (Or.inr ⟨m, hm, Or.inr ht⟩)))
        · intro t ht
          simp only [Option.getD_some] at ht
          exact (mem_foldl_addTool al _ t).mpr (Or.inr ht)

/-- Witness for C6 at the message `"hey"` with an `alwaysInclude` set:
the allowlist contains the casual category's tool and the always-include
tool. -/
theorem c6_allowlist_superset_witness :
    ((classifyMessage rtFalse exNone "hey" (some allOnConfig)).toolAllowlist =
      some ["message"]) ∧
    (∀ t ∈ ((some allOnConfig : Option ContextPlannerConfig).bind
      (fun c => c.alwaysInclude)).getD [], t ∈ ["message"]) :=
  ⟨by decide,
   (c6_allowlist_superset rtFalse exNone "hey" (some allOnConfig) ["message"]
     (by decide)).2⟩

-- ── C7 ──────────────────────────────────────────────────────────────────

theorem validThinkLevel_cases (s : String) (h : validThinkLevel s = true) :
    s = "off" ∨ s = "minimal" ∨ s = "low" ∨ s = "medium" ∨ s = "high" ∨ s = "xhigh" := by
  unfold validThinkLevel THINK_LEVEL_ORDER at h
  split_ifs at h with h1 h2 h3 h4 h5 h6
  · exact Or.inl h1
  · exact Or.inr (Or.inl h2)
  · exact Or.inr (Or.inr (Or.inl h3))
  · exact Or.inr (Or.inr (Or.inr (Or.inl h4)))
  · exact Or.inr (Or.inr (Or.inr (Or.inr (Or.inl h5))))
  · exact Or.inr (Or.inr (Or.inr (Or.inr (Or.inr h6))))
  · simp at h

theorem levelOfOrd_thinkOrd (s : String) (h : validThinkLevel s = true) :
    levelOfOrd (thinkOrd s) = s := by
  rcases validThinkLevel_cases s h with rfl | rfl | rfl | rfl | rfl | rfl <;> decide

theorem maxThinkLevel_spec (a b : String)
    (ha : validThinkLevel a = true) (hb : validThinkLevel b = true) :
    validThinkLevel (maxThinkLevel a b) = true ∧
    thinkOrd (maxThinkLevel a b) = Nat.max (thinkOrd a) (thinkOrd b) := by
  unfold maxThinkLevel
  by_cases h : (THINK_LEVEL_ORDER a).getD 0 ≥ (THINK_LEVEL_ORDER b).getD 0
  · rw [if_pos h]
    have h' : thinkOrd b ≤ thinkOrd a := h
    refine ⟨ha, ?_⟩
    simp only [Nat.max_def]
    split_ifs <;> omega
  · rw [if_neg h]
    have h' : ¬ thinkOrd b ≤ thinkOrd a := h
    refine ⟨hb, ?_⟩
    simp only [Nat.max_def]
    split_ifs <;> omega

theorem foldl_maxThinkLevel_spec (config : Option ContextPlannerConfig)
    (l : List (CategoryDef × Nat)) : ∀ start : String, validThinkLevel start = true →
    (∀ m ∈ l, validThinkLevel (effectiveThinkLevel config m.1) = true) →
    validThinkLevel (l.foldl
      (fun lvl m => maxThinkLevel lvl (effectiveThinkLevel config m.1)) start) = true ∧
    thinkOrd (l.foldl
      (fun lvl m => maxThinkLevel lvl (effectiveThinkLevel config m.1)) start) =
      (l.map (fun m => thinkOrd (effectiveThinkLevel config m.1))).foldl Nat.max
        (thinkOrd start) := by
  induction l with
  | nil => intro start hs _; exact ⟨hs, rfl⟩
  | cons hd tl ih =>
    intro start hs hl
    simp only [List.foldl_cons, List.map_cons]
    have hhd := hl hd (List.mem_cons_self hd tl)
    have hmax := maxThinkLevel_spec start (effectiveThinkLevel config hd.1) hs hhd
    have hrec := ih (maxThinkLevel start (effectiveThinkLevel config hd.1)) hmax.1
      (fun m hm => hl m (List.mem_cons_of_mem hd hm))
    refine ⟨hrec.1, ?_⟩
    rw [hrec.2, hmax.2]

/-- Claim C7: with thinking tuning enabled and a non-empty matched set,
the plan's `thinkLevel` is the maximum-ordinal level over the matched
categories after per-category overrides, under
`off < minimal < low < medium < high < xhigh` (the override-resolved
levels being valid level names). -/
theorem c7_think_level_max_ordinal (rt : RegexTest) (ex : ExtraPatternTest)
    (message : String) (config : Option ContextPlannerConfig)
    (h1 : config.bind (fun c => c.enabled) ≠ some false)
    (h0 : jsTrim message ≠ "")
    (h2 : matchedCategories rt ex (jsTrim message) config ≠ [])
    (hT : config.bind (fun c => c.thinkingTuning) ≠ some false)
    (hV : ∀ m ∈ matchedCategories rt ex (jsTrim message) config,
      validThinkLevel (effectiveThinkLevel config m.1) = true) :
    (classifyMessage rt ex message config).thinkLevel =
      levelOfOrd (((matchedCategories rt ex (jsTrim message) config).map
        (fun m => thinkOrd (effectiveThinkLevel config m.1))).foldl Nat.max 0) := by
  rw [classifyMessage_of_matched rt ex message config h1 h0 h2]
  show mergeThinkLevel config _ = _
  unfold mergeThinkLevel
  rw [if_pos hT]
  have hspec := foldl_maxThinkLevel_spec config
    (matchedCategories rt ex (jsTrim message) config) "off" (by decide) hV
  have hoff : thinkOrd "off" = 0 := by decide
  rw [hoff] at hspec
  rw [← hspec.2]
  exact (levelOfOrd_thinkOrd _ hspec.1).symm

/-- Witness for C7 at the message `"hey"` (matching exactly the casual
category, whose level is `"off"`). -/
theorem c7_think_level_max_ordinal_witness :
    ((matchedCategories rtFalse exNone (jsTrim "hey") none).length = 1) ∧
    (∀ m ∈ matchedCategories rtFalse exNone (jsTrim "hey") none,
      validThinkLevel (effectiveThinkLevel none m.1) = true) ∧
    (classifyMessage rtFalse exNone "hey" none).thinkLevel =
      levelOfOrd (((matchedCategories rtFalse exNone (jsTrim "hey") none).map
        (fun m => thinkOrd (effectiveThinkLevel none m.1))).foldl Nat.max 0) :=
  ⟨by decide, by decide,
   c7_think_level_max_ordinal rtFalse exNone "hey" none (by decide) (by decide)
     (fun hc => absurd (congrArg List.length hc) (by decide)) (by decide) (by decide)⟩

-- ── C3 ──────────────────────────────────────────────────────────────────

theorem foldl_add_shift {α : Type} (l : List α) (g : α → Nat) : ∀ a : Nat,
    l.foldl (fun s x => s + g x) a = a + l.foldl (fun s x => s + g x) 0 := by
  induction l with
  | nil => intro a; simp
  | cons hd tl ih =>
    intro a
    simp only [List.foldl_cons]
    rw [ih (a + g hd), ih (0 + g hd)]
    omega

theorem scoreCategory_eq_raw (rt : RegexTest) (ex : ExtraPatternTest) (msg : String)
    (cat : CategoryDef) (config : Option ContextPlannerConfig)
    (hdis : (categoryOverride config cat.name).bind (fun o => o.disabled) ≠ some true) :
    scoreCategory rt ex msg cat config =
      (if cat.name = "complex" then
        (if utf16Length msg < (config.bind (fun c => c.complexThreshold)).getD 300 then
          rawCategoryScore rt ex msg cat config - 3
        else rawCategoryScore rt ex msg cat config)
      else rawCategoryScore rt ex msg cat config) := by
  have B : ∀ a : Nat, (match (categoryOverride config cat.name).bind (fun o => o.extraPatterns) with
      | some ps => ps.foldl (fun s p =>
          match ex p msg with
          | some true => s + cat.matchWeight
          | _ => s) a
      | none => a) = a + extraPatternScore ex msg cat config := by
    intro a
    unfold extraPatternScore
    cases (categoryOverride config cat.name).bind (fun o => o.extraPatterns) with
    | none => simp
    | some ps =>
      have e2 : (fun (s : Nat) p =>
          match ex p msg with
          | some true => s + cat.matchWeight
          | _ => s) = (fun (s : Nat) p => s +
            (match ex p msg with
             | some true => cat.matchWeight
             | _ => 0)) := by
        funext s p
        rcases ex p msg with _ | b
        · rfl
        · cases b <;> rfl
      simp only [e2]
      rw [foldl_add_shift]
  have C : ∀ a : Nat, cat.structural.foldl (fun s check => s + check msg) a =
      a + structuralScore msg cat := by
    intro a
    unfold structuralScore
    rw [foldl_add_shift]
  unfold scoreCategory
  rw [if_neg hdis]
  simp only [B, C]
  rfl

theorem complexCategory_mem (rt : RegexTest) : complexCategory rt ∈ CATEGORIES rt := by
  unfold CATEGORIES
  exact .tail _ (.tail _ (.tail _ (.tail _ (.tail _ (.tail _ (.tail _ (.head _)))))))

theorem eq_complexCategory_of_name (rt : RegexTest) (cat : CategoryDef)
    (h : cat ∈ CATEGORIES rt) (hn : cat.name = "complex") : cat = complexCategory rt := by
  unfold CATEGORIES at h
  simp only [List.mem_cons, List.not_mem_nil, or_false] at h
  rcases h with rfl | rfl | rfl | rfl | rfl | rfl | rfl | rfl <;>
    first
      | rfl
      | simp at hn

theorem mem_complex_name_iff (rt : RegexTest) (ex : ExtraPatternTest) (msg : String)
    (config : Option ContextPlannerConfig) :
    ("complex" ∈ (matchedCategories rt ex msg config).map (fun m => m.1.name)) ↔
    scoreCategory rt ex msg (complexCategory rt) config ≥ (complexCategory rt).threshold := by
  rw [List.mem_map]
  constructor
  · rintro ⟨m, hm, hname⟩
    obtain ⟨cat, hcat, heq⟩ := List.mem_filterMap.mp hm
    by_cases hs : scoreCategory rt ex msg cat config ≥ cat.threshold
    · rw [if_pos hs] at heq
      cases heq
      have hc := eq_complexCategory_of_name rt cat hcat hname
      rw [hc] at hs
      exact hs
    · rw [if_neg hs] at heq
      cases heq
  · intro hs
    exact ⟨(complexCategory rt, scoreCategory rt ex msg (complexCategory rt) config),
      List.mem_filterMap.mpr ⟨complexCategory rt, complexCategory_mem rt, by rw [if_pos hs]⟩,
      rfl⟩

theorem scoreCategory_complex_short (rt : RegexTest) (ex : ExtraPatternTest)
    (msg : String) (config : Option ContextPlannerConfig)
    (hdis : (categoryOverride config "complex").bind (fun o => o.disabled) ≠ some true)
    (hshort : utf16Length msg < (config.bind (fun c => c.complexThreshold)).getD 300) :
    scoreCategory rt ex msg (complexCategory rt) config =
      rawCategoryScore rt ex msg (complexCategory rt) config - 3 := by
  rw [scoreCategory_eq_raw rt ex msg (complexCategory rt) config hdis]
  rw [if_pos (show (complexCategory rt).name = "complex" from rfl)]
  rw [if_pos hshort]

/-- Counterexample to C3 as stated: `"analyze multiple options"` is
shorter than the complex-length threshold and its keyword-pattern score
alone (4, via "analyze" and "multiple") reaches the complex category's
threshold (4), yet the message does not match `complex` — the flat
discount of 3 is taken from the total score, keyword contributions
included, leaving 1 < 4. -/
theorem c3_counterexample_keyword_only_short :
    utf16Length (jsTrim "analyze multiple options") < 300 ∧
    keywordPatternScore rtAnalyze (jsTrim "analyze multiple options")
      (complexCategory rtAnalyze) = (complexCategory rtAnalyze).threshold ∧
    "complex" ∉ (classifyMessage rtAnalyze exNone "analyze multiple options" none).categories :=
  ⟨by decide, by decide, by decide⟩

/-- Claim C3 as amended: for a message shorter than the complex-length
threshold (complex not disabled, planner enabled, message non-blank), the
complex category's score is discounted by a flat 3 taken from its total
score — keyword-pattern contributions included, not only structural ones
— so `complex` matches iff the un-discounted total (keyword + extra +
structural) reaches threshold + 3. -/
theorem c3_short_message_discount_on_total (rt : RegexTest) (ex : ExtraPatternTest)
    (message : String) (config : Option ContextPlannerConfig)
    (h1 : config.bind (fun c => c.enabled) ≠ some false)
    (h0 : jsTrim message ≠ "")
    (hdis : (categoryOverride config "complex").bind (fun o => o.disabled) ≠ some true)
    (hshort : utf16Length (jsTrim message) < (config.bind (fun c => c.complexThreshold)).getD 300) :
    ("complex" ∈ (classifyMessage rt ex message config).categories ↔
      rawCategoryScore rt ex (jsTrim message) (complexCategory rt) config ≥
        (complexCategory rt).threshold + 3) := by
  have hthr : (complexCategory rt).threshold = 4 := rfl
  have hscore := scoreCategory_complex_short rt ex (jsTrim message) config hdis hshort
  by_cases h2 : matchedCategories rt ex (jsTrim message) config = []
  · rw [classifyMessage_of_no_match rt ex message config h2]
    show "complex" ∈ ([] : List String) ↔ _
    constructor
    · intro h
      simp at h
    · intro hraw
      have hs : scoreCategory rt ex (jsTrim message) (complexCategory rt) config ≥
          (complexCategory rt).threshold := by
        rw [hscore, hthr]
        rw [hthr] at hraw
        omega
      have hmem := (mem_complex_name_iff rt ex (jsTrim message) config).mpr hs
      rw [h2] at hmem
      simp at hmem
  · rw [classifyMessage_of_matched rt ex message config h1 h0 h2]
    show "complex" ∈ (matchedCategories rt ex (jsTrim message) config).map
      (fun m => m.1.name) ↔ _
    rw [mem_complex_name_iff rt ex (jsTrim message) config, hscore, hthr]
    omega

/-- Witness for C3 (amended): with an all-matching oracle, the short
message `"a? b? c?"` has un-discounted complex score 11 ≥ 7, and indeed
matches `complex`. -/
theorem c3_short_message_discount_on_total_witness :
    (utf16Length (jsTrim "a? b? c?") < 300) ∧
    (rawCategoryScore rtTrue exNone (jsTrim "a? b? c?") (complexCategory rtTrue) none ≥
      (complexCategory rtTrue).threshold + 3) ∧
    "complex" ∈ (classifyMessage rtTrue exNone "a? b? c?" none).categories :=
  ⟨by decide, by decide,
   (c3_short_message_discount_on_total rtTrue exNone "a? b? c?" none (by decide)
     (by decide) (by decide) (by decide)).mpr (by decide)⟩

-- ── C8 ──────────────────────────────────────────────────────────────────

theorem insertFact_length (a : MemoryCortexFact) (l : List MemoryCortexFact) :
    (insertFact a l).length = l.length + 1 := by
  induction l with
  | nil => rfl
  | cons b rest ih =>
    unfold insertFact
    split
    · simp
    · simp [ih]

theorem sortFacts_length (l : List MemoryCortexFact) :
    (sortFacts l).length = l.length := by
  unfold sortFacts
  induction l with
  | nil => rfl
  | cons a rest ih =>
    simp only [List.foldr_cons]
    rw [insertFact_length, ih]
    simp

/-- Claim C8 as amended: the cached synthesis narrative is included
(directly after the header, before the `**Individual facts:**` bulleted
list) iff its response is non-empty and its age is strictly below the
TTL (default 300000 ms); once the age reaches the TTL the narrative is
dropped and, when facts are present, the block is rendered exactly as if
no synthesis were cached — but when the facts list is empty, a stale
cache entry still defeats the empty-input guard and produces a
header-only block, whereas an absent cache yields the empty (no-context)
result. -/
theorem c8_synthesis_ttl (facts : List MemoryCortexFact) (mt : Nat)
    (synth : MemoryCortexSynthesis) (ttlCfg : Option Nat) (now : Int) :
    ((synth.response ≠ "" → now - synth.cachedAt < ((ttlCfg.getD 300000 : Nat) : Int) →
      (formatLines facts (some synth) ttlCfg now).get? 2 = some (summaryLine synth) ∧
      (facts ≠ [] →
        (formatLines facts (some synth) ttlCfg now).get? 4 = some "**Individual facts:**")) ∧
     (¬(synth.response ≠ "" ∧ now - synth.cachedAt < ((ttlCfg.getD 300000 : Nat) : Int)) →
      formatLines facts (some synth) ttlCfg now = formatLines facts none ttlCfg now ∧
      (facts ≠ [] →
        formatFactsAsContext facts mt (some synth) ttlCfg now =
          formatFactsAsContext facts mt none ttlCfg now)) ∧
     (now - synth.cachedAt ≥ ((ttlCfg.getD 300000 : Nat) : Int) → facts = [] → 6 ≤ mt →
      formatFactsAsContext facts mt (some synth) ttlCfg now = "## Long-Term Memories\n" ∧
      formatFactsAsContext facts mt none ttlCfg now = "")) := by
  refine ⟨?_, ?_, ?_⟩
  · intro hr hf
    have hcond : (decide (synth.response ≠ "") &&
        decide (now - synth.cachedAt < ((ttlCfg.getD 300000 : Nat) : Int))) = true := by
      rw [decide_eq_true hr, decide_eq_true hf]
      rfl
    constructor
    · unfold formatLines
      simp only [hcond, if_true]
      split <;> rfl
    · intro hfacts
      have hlen : (sortFacts facts).length > 0 := by
        rw [sortFacts_length]
        exact List.length_pos.mpr hfacts
      unfold formatLines
      simp only [hcond, if_true]
      rw [if_pos hlen]
      rfl
  · intro hstale
    have hcond : (decide (synth.response ≠ "") &&
        decide (now - synth.cachedAt < ((ttlCfg.getD 300000 : Nat) : Int))) = false := by
      by_cases hr : synth.response ≠ ""
      · have hf : ¬(now - synth.cachedAt < ((ttlCfg.getD 300000 : Nat) : Int)) :=
          fun hf => hstale ⟨hr, hf⟩
        rw [decide_eq_true hr, decide_eq_false hf]
        rfl
      · rw [decide_eq_false hr]
        rfl
    have hlines : formatLines facts (some synth) ttlCfg now =
        formatLines facts none ttlCfg now := by
      unfold formatLines
      simp only [hcond]
      rfl
    refine ⟨hlines, fun hfacts => ?_⟩
    have hlen : facts.length ≠ 0 := fun hc => hfacts (List.length_eq_zero.mp hc)
    unfold formatFactsAsContext
    simp only [hlines]
    have g1 : (decide (facts.length = 0) &&
        decide ((some synth : Option MemoryCortexSynthesis) = none)) = false := by
      rw [decide_eq_false (fun hc : (some synth : Option MemoryCortexSynthesis) = none =>
        Option.noConfusion hc)]
      simp
    simp only [g1]
    simp [hlen]
  · intro hstale hempty hmt
    subst hempty
    have hcond : (decide (synth.response ≠ "") &&
        decide (now - synth.cachedAt < ((ttlCfg.getD 300000 : Nat) : Int))) = false := by
      have hf : ¬(now - synth.cachedAt < ((ttlCfg.getD 300000 : Nat) : Int)) :=
        Int.not_lt.mpr hstale
      rw [decide_eq_false hf]
      simp
    constructor
    · unfold formatFactsAsContext
      have g1 : (decide (([] : List MemoryCortexFact).length = 0) &&
          decide ((some synth : Option MemoryCortexSynthesis) = none)) = false := by
        rw [decide_eq_false (fun hc : (some synth : Option MemoryCortexSynthesis) = none =>
          Option.noConfusion hc)]
        simp
      simp only [g1]
      unfold formatLines
      simp only [hcond]
      have hblock : String.intercalate "\n" ["## Long-Term Memories", ""] =
          "## Long-Term Memories\n" := by decide
      have hlenblock : utf16Length "## Long-Term Memories\n" = 22 := by decide
      simp only [Bool.false_eq_true, if_false, sortFacts, List.foldr_nil,
        List.length_nil, gt_iff_lt, Nat.lt_irrefl, hblock, hlenblock]
      rw [if_neg (by omega)]
    · rfl

/-- Witness for C8 (amended) at a fresh cached synthesis and one fact:
the narrative line sits at index 2, before the facts header at index 4. -/
theorem c8_synthesis_ttl_witness :
    (exampleSynthesis.response ≠ "") ∧
    ((2000 : Int) - exampleSynthesis.cachedAt < (((none : Option Nat).getD 300000 : Nat) : Int)) ∧
    (formatLines [exampleFact] (some exampleSynthesis) none 2000).get? 2 =
      some (summaryLine exampleSynthesis) ∧
    (formatLines [exampleFact] (some exampleSynthesis) none 2000).get? 4 =
      some "**Individual facts:**" :=
  ⟨by decide, by decide,
   ((c8_synthesis_ttl [exampleFact] 500 exampleSynthesis none 2000).1
     (by decide) (by decide)).1,
   ((c8_synthesis_ttl [exampleFact] 500 exampleSynthesis none 2000).1
     (by decide) (by decide)).2 (by decide)⟩
